import Mathlib

/-!
Verification of the AthleteAI demo HTTP server (`server.py`).

The server is a single `http.server` handler class.  We embed its request
handling as pure Lean functions:

* `Json` models Python values produced by `json.loads` (integers stand in for
  JSON numbers; no claim depends on floats).
* `PyExc` models the Python exceptions that can escape the handlers, keeping
  exactly the distinction the code relies on: `except json.JSONDecodeError`
  catches only `jsonDecodeError`, while `except Exception` catches everything.
* The stdlib collaborators (`bytes.decode("utf-8")`, `json.loads`, `int(...)`,
  dict `.get`/`in`) are modelled faithfully at the level the handlers use them.
* Timestamps (`datetime.now()`) are threaded as an explicit `now : String`.
-/

/-- A JSON value as produced by Python `json.loads`.  Objects keep their
key/value pairs in source order (duplicates allowed; lookup takes the last,
as a Python dict built from JSON does). -/
inductive Json where
  | null
  | bool (b : Bool)
  | num (n : Int)
  | str (s : String)
  | arr (items : List Json)
  | obj (fields : List (String × Json))
deriving Repr

/-- Python exceptions that the handler code can raise.  Only the constructor
identity matters for control flow: `except json.JSONDecodeError` catches
`jsonDecodeError` alone; `except Exception` catches all of them. -/
inductive PyExc where
  | jsonDecodeError
  | unicodeDecodeError
  | typeError (msg : String)
  | valueError (msg : String)
  | attributeError (msg : String)
deriving DecidableEq, Repr

/-- Model of `str(e)` for the exception, as interpolated into the 500 reason text. -/
def PyExc.text : PyExc → String
  | .jsonDecodeError => "Invalid JSON document"
  | .unicodeDecodeError => "utf-8 codec cannot decode byte"
  | .typeError m => m
  | .valueError m => m
  | .attributeError m => m

/-- The Python type name of a JSON value, as it appears in exception texts. -/
def Json.pyType : Json → String
  | .null => "NoneType"
  | .bool _ => "bool"
  | .num _ => "int"
  | .str _ => "str"
  | .arr _ => "list"
  | .obj _ => "dict"

/-- Whether the value is hashable in Python (usable as a dict key / in an
`in` test).  Lists and dicts are unhashable. -/
def Json.hashable : Json → Bool
  | .arr _ => false
  | .obj _ => false
  | _ => true

/-- Python truthiness of a JSON value (`if not x`). -/
def Json.truthy : Json → Bool
  | .null => false
  | .bool b => b
  | .num n => n != 0
  | .str s => s != ""
  | .arr items => !items.isEmpty
  | .obj fields => !fields.isEmpty

/-- Is the value a JSON object (a Python dict after `json.loads`)? -/
def Json.isObj : Json → Bool
  | .obj _ => true
  | _ => false

/-- Does the second character list start with the first? -/
def startsWithChars : List Char → List Char → Bool
  | [], _ => true
  | _ :: _, [] => false
  | p :: ps, c :: cs => p == c && startsWithChars ps cs

/-- Python `s.startswith(pre)` on strings. -/
def strStartsWith (s pre : String) : Bool :=
  startsWithChars pre.data s.data

/-- Python whitespace for `str.strip()` / JSON skipping. -/
def wsChar (c : Char) : Bool :=
  c = ' ' || c = '\t' || c = '\n' || c = '\r'

/-- Drop leading whitespace characters. -/
def dropLeadWs : List Char → List Char
  | [] => []
  | c :: rest => if wsChar c then dropLeadWs rest else c :: rest

/-- Strip whitespace from both ends. -/
def trimChars (cs : List Char) : List Char :=
  (dropLeadWs (dropLeadWs cs).reverse).reverse

/-- Are all characters decimal digits? -/
def allDigits : List Char → Bool
  | [] => true
  | c :: rest => c.isDigit && allDigits rest

/-- Numeric value of a digit run. -/
def digitsToNat (ds : List Char) : Nat :=
  ds.foldl (fun a c => a * 10 + (c.toNat - 48)) 0

/-- Python `int(string)`: optional surrounding whitespace, an optional sign,
then decimal digits; anything else is rejected. -/
def pyStrToInt (s : String) : Option Int :=
  match trimChars s.data with
  | '-' :: ds => if !ds.isEmpty && allDigits ds then some (-(Int.ofNat (digitsToNat ds))) else none
  | '+' :: ds => if !ds.isEmpty && allDigits ds then some (Int.ofNat (digitsToNat ds)) else none
  | ds => if !ds.isEmpty && allDigits ds then some (Int.ofNat (digitsToNat ds)) else none

/-- The characters before the first `@` (the whole string when there is
none): Python `email.split("@")[0]`. -/
def beforeAt : List Char → List Char
  | [] => []
  | c :: rest => if c = '@' then [] else c :: beforeAt rest

/-- The local part of an email string. -/
def localPart (s : String) : String :=
  String.mk (beforeAt s.data)

/-- Lookup in an object field list with Python-dict semantics: the last
occurrence of a duplicated key wins. -/
def lookupLast (fields : List (String × Json)) (k : String) : Option Json :=
  match fields with
  | [] => none
  | (k2, v) :: rest =>
    match lookupLast rest k with
    | some r => some r
    | none => if k2 = k then some v else none

/-- Dict read with a default: `fields.get(k, d)` on an object body. -/
def fieldD (fields : List (String × Json)) (k : String) (d : Json) : Json :=
  (lookupLast fields k).getD d

/-- Python `data.get(k, d)`: succeeds on a dict, raises `AttributeError` on
every other value (list, str, int, bool, None have no `.get`). -/
def pyGet (data : Json) (k : String) (d : Json) : Except PyExc Json :=
  match data with
  | .obj fields => .ok (fieldD fields k d)
  | other => .error (.attributeError (other.pyType ++ " object has no attribute get"))

/-- Python `int(x)` applied to an optional header value: `int(None)` raises
`TypeError`; a non-numeric string raises `ValueError`. -/
def pyInt : Option String → Except PyExc Int
  | none => .error (.typeError "int() argument must be a string, a bytes-like object or a real number, not NoneType")
  | some s =>
    match pyStrToInt s with
    | some n => .ok n
    | none => .error (.valueError ("invalid literal for int() with base 10: " ++ s))

/-- Is the byte a UTF-8 continuation byte (0x80–0xBF)? -/
def isCont (b : Nat) : Bool := 0x80 ≤ b && b ≤ 0xBF

/-- Valid range for the first continuation byte of a 3-byte sequence
(excludes overlong encodings and surrogates, as CPython strict mode does). -/
def cont3Ok (b1 b2 : Nat) : Bool :=
  if b1 = 0xE0 then 0xA0 ≤ b2 && b2 ≤ 0xBF
  else if b1 = 0xED then 0x80 ≤ b2 && b2 ≤ 0x9F
  else isCont b2

/-- Valid range for the first continuation byte of a 4-byte sequence. -/
def cont4Ok (b1 b2 : Nat) : Bool :=
  if b1 = 0xF0 then 0x90 ≤ b2 && b2 ≤ 0xBF
  else if b1 = 0xF4 then 0x80 ≤ b2 && b2 ≤ 0x8F
  else isCont b2

/-- Modelled from the spec: strict UTF-8 decoding of a byte list, as
`bytes.decode("utf-8")` does (the repository delegates this to the Python
stdlib).  Returns `none` exactly when the bytes are not valid UTF-8. -/
def utf8DecodeList : List Nat → Option (List Char)
  | [] => some []
  | b1 :: rest =>
    if b1 < 0x80 then
      (utf8DecodeList rest).map (fun cs => Char.ofNat b1 :: cs)
    else if 0xC2 ≤ b1 && b1 ≤ 0xDF then
      match rest with
      | b2 :: rest2 =>
        if isCont b2 then
          (utf8DecodeList rest2).map (fun cs => Char.ofNat ((b1 - 0xC0) * 64 + (b2 - 0x80)) :: cs)
        else none
      | [] => none
    else if 0xE0 ≤ b1 && b1 ≤ 0xEF then
      match rest with
      | b2 :: b3 :: rest3 =>
        if cont3Ok b1 b2 && isCont b3 then
          (utf8DecodeList rest3).map
            (fun cs => Char.ofNat ((b1 - 0xE0) * 4096 + (b2 - 0x80) * 64 + (b3 - 0x80)) :: cs)
        else none
      | _ => none
    else if 0xF0 ≤ b1 && b1 ≤ 0xF4 then
      match rest with
      | b2 :: b3 :: b4 :: rest4 =>
        if cont4Ok b1 b2 && isCont b3 && isCont b4 then
          (utf8DecodeList rest4).map
            (fun cs => Char.ofNat ((b1 - 0xF0) * 262144 + (b2 - 0x80) * 4096 + (b3 - 0x80) * 64 + (b4 - 0x80)) :: cs)
        else none
      | _ => none
    else none

/-- Model of `post_data.decode("utf-8")`: a `UnicodeDecodeError` on invalid bytes. -/
def utf8Decode (bytes : List Nat) : Except PyExc String :=
  match utf8DecodeList bytes with
  | some cs => .ok (String.mk cs)
  | none => .error .unicodeDecodeError

/-- Skip JSON whitespace. -/
def skipWs : List Char → List Char
  | [] => []
  | c :: rest =>
    if c = ' ' || c = '\t' || c = '\n' || c = '\r' then skipWs rest else c :: rest

/-- Consume the expected literal characters, or fail. -/
def expectChars : List Char → List Char → Option (List Char)
  | [], cs => some cs
  | _ :: _, [] => none
  | e :: es, c :: cs => if c = e then expectChars es cs else none

/-- Take a maximal run of decimal digits. -/
def takeDigits : List Char → List Char × List Char
  | [] => ([], [])
  | c :: rest =>
    if c.isDigit then
      let p := takeDigits rest
      (c :: p.1, p.2)
    else ([], c :: rest)

/-- Parse the characters of a JSON string after the opening quote, with the
common escapes; returns the content and the remainder after the closing
quote. -/
def parseStringChars : List Char → Option (List Char × List Char)
  | [] => none
  | c :: rest =>
    if c = '"' then some ([], rest)
    else if c = '\\' then
      match rest with
      | [] => none
      | e :: rest2 =>
        let ec := if e = 'n' then '\n' else if e = 't' then '\t' else if e = 'r' then '\r' else e
        (parseStringChars rest2).map (fun p => (ec :: p.1, p.2))
    else (parseStringChars rest).map (fun p => (c :: p.1, p.2))

mutual

/-- Modelled from the spec: recursive-descent JSON value parser, standing in
for the stdlib `json.loads` the repository delegates to (JSON numbers are
modelled as integers; `\u` escapes are not modelled).  Returns the value and
the unconsumed remainder. -/
def parseVal : Nat → List Char → Option (Json × List Char)
  | 0, _ => none
  | Nat.succ fuel, cs =>
    match skipWs cs with
    | [] => none
    | c :: rest =>
      if c = 'n' then (expectChars ['u', 'l', 'l'] rest).map (fun r => (Json.null, r))
      else if c = 't' then (expectChars ['r', 'u', 'e'] rest).map (fun r => (Json.bool true, r))
      else if c = 'f' then (expectChars ['a', 'l', 's', 'e'] rest).map (fun r => (Json.bool false, r))
      else if c = '"' then (parseStringChars rest).map (fun p => (Json.str (String.mk p.1), p.2))
      else if c = '-' then
        match takeDigits rest with
        | ([], _) => none
        | (ds, r) => some (Json.num (-(Int.ofNat (digitsToNat ds))), r)
      else if c.isDigit then
        let p := takeDigits (c :: rest)
        some (Json.num (Int.ofNat (digitsToNat p.1)), p.2)
      else if c = '[' then
        match skipWs rest with
        | ']' :: r => some (Json.arr [], r)
        | cs2 => (parseArrTail fuel cs2).map (fun p => (Json.arr p.1, p.2))
      else if c = '\x7b' then
        match skipWs rest with
        | '\x7d' :: r => some (Json.obj [], r)
        | cs2 => (parseObjTail fuel cs2).map (fun p => (Json.obj p.1, p.2))
      else none

/-- Parse the comma-separated items of a non-empty JSON array, up to and
including the closing bracket. -/
def parseArrTail : Nat → List Char → Option (List Json × List Char)
  | 0, _ => none
  | Nat.succ fuel, cs =>
    match parseVal fuel cs with
    | none => none
    | some (v, r) =>
      match skipWs r with
      | ',' :: r2 => (parseArrTail fuel r2).map (fun p => (v :: p.1, p.2))
      | ']' :: r2 => some ([v], r2)
      | _ => none

/-- Parse the members of a non-empty JSON object, up to and including the
closing brace. -/
def parseObjTail : Nat → List Char → Option (List (String × Json) × List Char)
  | 0, _ => none
  | Nat.succ fuel, cs =>
    match skipWs cs with
    | '"' :: r =>
      match parseStringChars r with
      | none => none
      | some (kcs, r2) =>
        match skipWs r2 with
        | ':' :: r3 =>
          match parseVal fuel r3 with
          | none => none
          | some (v, r4) =>
            match skipWs r4 with
            | ',' :: r5 => (parseObjTail fuel r5).map (fun p => ((String.mk kcs, v) :: p.1, p.2))
            | '\x7d' :: r5 => some ([(String.mk kcs, v)], r5)
            | _ => none
        | _ => none
    | _ => none

end

/-- Model of `json.loads(text)`: parse one JSON value, allow trailing whitespace only,
and raise `json.JSONDecodeError` on failure. -/
def jsonLoads (s : String) : Except PyExc Json :=
  match parseVal (s.length + 1) s.data with
  | some (v, rest) => if (skipWs rest).isEmpty then .ok v else .error .jsonDecodeError
  | none => .error .jsonDecodeError

/-- The body of an HTTP response produced by the handler. -/
inductive RespBody where
  | empty
  | jsonBody (j : Json)
  | fileBody (content : String)
deriving Repr

/-- An HTTP response: status code, reason phrase, headers in send order, and
body. -/
structure HttpResponse where
  status : Nat
  reason : String
  headers : List (String × String)
  body : RespBody
deriving Repr

/-- The six fixed headers that `end_headers` injects (CORS + no-cache). -/
def corsHeaders : List (String × String) :=
  [ ("Access-Control-Allow-Origin", "*"),
    ("Access-Control-Allow-Methods", "GET, POST, PUT, DELETE, OPTIONS"),
    ("Access-Control-Allow-Headers", "Content-Type, Authorization"),
    ("Cache-Control", "no-cache, no-store, must-revalidate"),
    ("Pragma", "no-cache"),
    ("Expires", "0") ]

/-- Embedding of `end_headers`: every response flushes its headers through this override,
which appends the six fixed headers. -/
def end_headers (hs : List (String × String)) : List (String × String) :=
  hs ++ corsHeaders

/-- Embedding of `send_json_response(data)`: status 200 with a JSON body. -/
def send_json_response (data : Json) : HttpResponse :=
  { status := 200
    reason := "OK"
    headers := end_headers [("Content-Type", "application/json")]
    body := .jsonBody data }

/-- Embedding of `send_error(code, reason)`: an error response; `BaseHTTPRequestHandler`
routes it through the same `end_headers` override. -/
def send_error (code : Nat) (reason : String) : HttpResponse :=
  { status := code
    reason := reason
    headers := end_headers [("Content-Type", "text/html;charset=utf-8"), ("Connection", "close")]
    body := .empty }

/-- A record of the demo user table. -/
structure DemoUser where
  password : String
  role : String
  name : String
deriving DecidableEq, Repr

/-- The fixed three-entry demo table from `handle_login`. -/
def demo_users : List (String × DemoUser) :=
  [ ("athlete@demo.com", { password := "password123", role := "athlete", name := "Demo Athlete" }),
    ("coach@demo.com", { password := "password123", role := "coach", name := "Demo Coach" }),
    ("admin@demo.com", { password := "password123", role := "admin", name := "Demo Admin" }) ]

/-- The `{success: False, error: "Invalid credentials"}` body. -/
def invalidCredentials : Json :=
  .obj [("success", .bool false), ("error", .str "Invalid credentials")]

/-- The `{success: False, error: "Missing required fields"}` body. -/
def missingFields : Json :=
  .obj [("success", .bool false), ("error", .str "Missing required fields")]

/-- Python equality test between a JSON value and a string (`== password`
where the stored password is a `str`): true only for the equal string. -/
def eqStr (v : Json) (s : String) : Bool :=
  match v with
  | .str s2 => s2 = s
  | _ => false

/-- Embedding of `handle_login(data)`.  Mirrors the source: `.get` the two fields
(raising on a non-dict), test `email in demo_users` (raising `TypeError` on
an unhashable email value), compare the stored password, and build either
the success object or the invalid-credentials object. -/
def handle_login (now : String) (data : Json) : Except PyExc Json :=
  match pyGet data "email" (.str "") with
  | .error e => .error e
  | .ok email =>
  match pyGet data "password" (.str "") with
  | .error e => .error e
  | .ok password =>
  if email.hashable then
    match email with
    | .str s =>
      match demo_users.lookup s with
      | some u =>
        if eqStr password u.password then
          .ok (.obj
            [ ("success", .bool true),
              ("user", .obj
                [ ("id", .str ("user_" ++ localPart s)),
                  ("email", .str s),
                  ("name", .str u.name),
                  ("role", .str u.role) ]),
              ("token", .str ("demo_token_" ++ now)) ])
        else .ok invalidCredentials
      | none => .ok invalidCredentials
    | _ => .ok invalidCredentials
  else .error (.typeError ("unhashable type: " ++ email.pyType))

/-- Embedding of `handle_register(data)`: read the four fields with `.get`, reject when
any of name/email/password is falsy, else echo them with a timestamp id. -/
def handle_register (now : String) (data : Json) : Except PyExc Json :=
  match pyGet data "name" (.str "") with
  | .error e => .error e
  | .ok name =>
  match pyGet data "email" (.str "") with
  | .error e => .error e
  | .ok email =>
  match pyGet data "password" (.str "") with
  | .error e => .error e
  | .ok password =>
  match pyGet data "role" (.str "athlete") with
  | .error e => .error e
  | .ok role =>
  if !name.truthy || !email.truthy || !password.truthy then
    .ok missingFields
  else
    .ok (.obj
      [ ("success", .bool true),
        ("user", .obj
          [ ("id", .str ("user_" ++ now)),
            ("name", name),
            ("email", email),
            ("role", role) ]) ])

/-- Embedding of `handle_training_session(data)`: ignores `data` entirely. -/
def handle_training_session (now : String) (data : Json) : Json :=
  .obj
    [ ("success", .bool true),
      ("sessionId", .str ("session_" ++ now)),
      ("message", .str "Training session saved successfully") ]

/-- Embedding of `handle_ai_analysis(data)`: ignores `data` entirely. -/
def handle_ai_analysis (now : String) (data : Json) : Json :=
  .obj
    [ ("success", .bool true),
      ("analysisId", .str ("analysis_" ++ now)),
      ("message", .str "AI analysis saved successfully") ]

/-- The body-reading pipeline at the top of `handle_api_post`:
`int(self.headers["Content-Length"])`, `self.rfile.read(content_length)`,
`.decode("utf-8")`, `json.loads`. -/
def readAndParse (contentLength : Option String) (body : List Nat) : Except PyExc Json :=
  match pyInt contentLength with
  | .error e => .error e
  | .ok n =>
  match utf8Decode (body.take n.toNat) with
  | .error e => .error e
  | .ok text => jsonLoads text

/-- The `try` block of `handle_api_post`: parse the body, then dispatch on
the exact path.  `none` marks the unmatched-path branch (which answers 404
inside the `try`); exceptions from the handlers propagate. -/
def api_post_core (now path : String) (contentLength : Option String) (body : List Nat) :
    Except PyExc (Option Json) :=
  match readAndParse contentLength body with
  | .error e => .error e
  | .ok data =>
  if path = "/api/auth/login" then
    match handle_login now data with
    | .error e => .error e
    | .ok r => .ok (some r)
  else if path = "/api/auth/register" then
    match handle_register now data with
    | .error e => .error e
    | .ok r => .ok (some r)
  else if path = "/api/training/sessions" then
    .ok (some (handle_training_session now data))
  else if path = "/api/ai/analysis" then
    .ok (some (handle_ai_analysis now data))
  else
    .ok none

/-- Embedding of `handle_api_post`: run the `try` block; `except json.JSONDecodeError`
answers 400 "Invalid JSON", `except Exception` answers 500 with the error
text, and a successful handler result is sent as JSON. -/
def handle_api_post (now path : String) (contentLength : Option String) (body : List Nat) :
    HttpResponse :=
  match api_post_core now path contentLength body with
  | .ok (some r) => send_json_response r
  | .ok none => send_error 404 "API endpoint not found"
  | .error .jsonDecodeError => send_error 400 "Invalid JSON"
  | .error e => send_error 500 ("Internal server error: " ++ e.text)

/-- The fixed config constant served at `/api/config`. -/
def config : Json :=
  .obj
    [ ("appName", .str "AthleteAI"),
      ("version", .str "1.0.0"),
      ("features", .obj
        [ ("aiTesting", .bool true),
          ("faceRecognition", .bool true),
          ("offlineMode", .bool true),
          ("pwa", .bool true) ]) ]

/-- Embedding of `handle_api_get`: exact matches on `/api/health` and `/api/config`, else
404 "API endpoint not found".  (The surrounding `try` can never fire: no
branch raises.) -/
def handle_api_get (now path : String) : HttpResponse :=
  if path = "/api/health" then
    send_json_response (.obj [("status", .str "healthy"), ("timestamp", .str now)])
  else if path = "/api/config" then
    send_json_response config
  else
    send_error 404 "API endpoint not found"

/-- Modelled from the spec: the static-file delegate (`SimpleHTTPRequestHandler.do_GET`,
stdlib, not in the repository): serve the file when the root directory has
one at the path, else 404; both outcomes flush headers through the same
`end_headers` override. -/
def serve_static (fs : String → Option String) (path : String) : HttpResponse :=
  match fs path with
  | some content =>
    { status := 200
      reason := "OK"
      headers := end_headers [("Content-Type", "application/octet-stream")]
      body := .fileBody content }
  | none => send_error 404 "File not found"

/-- Embedding of `do_GET`: API namespace to `handle_api_get`, everything else to the
static-file delegate. -/
def do_GET (fs : String → Option String) (now path : String) : HttpResponse :=
  if strStartsWith path "/api/" then handle_api_get now path
  else serve_static fs path

/-- Embedding of `do_POST`: API namespace to `handle_api_post`, everything else 404
"Not Found". -/
def do_POST (now path : String) (contentLength : Option String) (body : List Nat) :
    HttpResponse :=
  if strStartsWith path "/api/" then handle_api_post now path contentLength body
  else send_error 404 "Not Found"

/-- Embedding of `do_OPTIONS`: 200 with an empty body. -/
def do_OPTIONS : HttpResponse :=
  { status := 200
    reason := "OK"
    headers := end_headers []
    body := .empty }

/-- Request methods the handler class implements. -/
inductive Method where
  | GET
  | POST
  | OPTIONS
deriving DecidableEq, Repr

/-- The whole request router: one response per request. -/
def handleRequest (fs : String → Option String) (now : String) (m : Method) (path : String)
    (contentLength : Option String) (body : List Nat) : HttpResponse :=
  match m with
  | .GET => do_GET fs now path
  | .POST => do_POST now path contentLength body
  | .OPTIONS => do_OPTIONS

/-- ASCII bytes of a string, for building concrete request bodies. -/
def asciiBytes (s : String) : List Nat :=
  s.data.map Char.toNat

/-- Spec-side predicate: the request fields name a demo account together
with its exact stored password (the success condition of the login
handler, stated independently of it). -/
def loginMatches (fields : List (String × Json)) : Bool :=
  match fieldD fields "email" (.str "") with
  | .str s =>
    match demo_users.lookup s with
    | some u => eqStr (fieldD fields "password" (.str "")) u.password
    | _ => false
  | _ => false

/-! ## Claim theorems -/

/-- Claim C1: each of the three demo accounts logs in with password
`password123`; the result has `success = true`, the role from the demo
table, and id `"user_" ++` the local part of the email. -/
theorem C1_demo_logins (now : String) :
    (do_POST now "/api/auth/login" (some "56")
        (asciiBytes "\x7b\"email\": \"athlete@demo.com\", \"password\": \"password123\"\x7d") =
      send_json_response (.obj
        [ ("success", .bool true),
          ("user", .obj
            [ ("id", .str "user_athlete"),
              ("email", .str "athlete@demo.com"),
              ("name", .str "Demo Athlete"),
              ("role", .str "athlete") ]),
          ("token", .str ("demo_token_" ++ now)) ])) ∧
    (do_POST now "/api/auth/login" (some "54")
        (asciiBytes "\x7b\"email\": \"coach@demo.com\", \"password\": \"password123\"\x7d") =
      send_json_response (.obj
        [ ("success", .bool true),
          ("user", .obj
            [ ("id", .str "user_coach"),
              ("email", .str "coach@demo.com"),
              ("name", .str "Demo Coach"),
              ("role", .str "coach") ]),
          ("token", .str ("demo_token_" ++ now)) ])) ∧
    (do_POST now "/api/auth/login" (some "54")
        (asciiBytes "\x7b\"email\": \"admin@demo.com\", \"password\": \"password123\"\x7d") =
      send_json_response (.obj
        [ ("success", .bool true),
          ("user", .obj
            [ ("id", .str "user_admin"),
              ("email", .str "admin@demo.com"),
              ("name", .str "Demo Admin"),
              ("role", .str "admin") ]),
          ("token", .str ("demo_token_" ++ now)) ])) :=
  ⟨rfl, rfl, rfl⟩

/-- Claim C2, counterexample: a login body whose `email` field is a JSON
array is not one of the demo keys, yet the server answers 500 (the `in`
test raises `TypeError: unhashable type`), not the claimed 200 body. -/
theorem C2_counterexample :
    do_POST "0" "/api/auth/login" (some "29")
        (asciiBytes "\x7b\"email\": [], \"password\": \"\"\x7d") =
      send_error 500 "Internal server error: unhashable type: list" ∧
    (do_POST "0" "/api/auth/login" (some "29")
        (asciiBytes "\x7b\"email\": [], \"password\": \"\"\x7d")).status = 500 :=
  ⟨rfl, rfl⟩

/-- Claim C2, amended: for every parsed login body whose `email` value is
hashable and does not name a demo account with its exact password, the
handler answers the 200 JSON body `{success: false, error: "Invalid
credentials"}`. -/
theorem C2_invalid_credentials (now : String) (cl : Option String) (body : List Nat)
    (fields : List (String × Json))
    (hparse : readAndParse cl body = Except.ok (Json.obj fields))
    (hhash : (fieldD fields "email" (Json.str "")).hashable = true)
    (hmatch : loginMatches fields = false) :
    do_POST now "/api/auth/login" cl body = send_json_response invalidCredentials ∧
    (send_json_response invalidCredentials).status = 200 := by
  have hlogin : handle_login now (Json.obj fields) = Except.ok invalidCredentials := by
    unfold handle_login
    simp only [pyGet]
    unfold loginMatches at hmatch
    generalize hE : fieldD fields "email" (Json.str "") = email at hhash hmatch ⊢
    generalize hP : fieldD fields "password" (Json.str "") = pwd at hmatch ⊢
    cases email with
    | null => rfl
    | bool b => rfl
    | num n => rfl
    | arr items => simp [Json.hashable] at hhash
    | obj f2 => simp [Json.hashable] at hhash
    | str s =>
      cases hL : demo_users.lookup s with
      | none => simp [Json.hashable, hL]
      | some u =>
        simp only [hL] at hmatch
        simp [Json.hashable, hL, hmatch]
  refine ⟨?_, rfl⟩
  show handle_api_post now "/api/auth/login" cl body = _
  unfold handle_api_post api_post_core
  rw [hparse]
  simp [hlogin]

/-- Claim C2 witness: an unknown (string) email gets the invalid-credentials
body at status 200. -/
theorem C2_invalid_credentials_witness :
    do_POST "0" "/api/auth/login" (some "37")
        (asciiBytes "\x7b\"email\": \"x@y.com\", \"password\": \"p\"\x7d") =
      send_json_response invalidCredentials ∧
    (send_json_response invalidCredentials).status = 200 :=
  C2_invalid_credentials "0" (some "37")
    (asciiBytes "\x7b\"email\": \"x@y.com\", \"password\": \"p\"\x7d")
    [("email", Json.str "x@y.com"), ("password", Json.str "p")] rfl rfl rfl

/-- Claim C3, counterexample: a one-byte body `0xFF` is not valid UTF-8;
`decode("utf-8")` raises `UnicodeDecodeError`, which `except
json.JSONDecodeError` does not catch, so the server answers 500, not the
claimed 400. -/
theorem C3_counterexample :
    do_POST "0" "/api/auth/login" (some "1") [255] =
      send_error 500 "Internal server error: utf-8 codec cannot decode byte" ∧
    (do_POST "0" "/api/auth/login" (some "1") [255]).status = 500 :=
  ⟨rfl, rfl⟩

/-- Claim C3, amended: on POST under `/api/`, a JSON-parse failure of the
decoded text answers 400 "Invalid JSON", while a UTF-8 decode failure
raises past the `JSONDecodeError` handler and answers 500. -/
theorem C3_body_parse_failures (now path : String) (cl : Option String) (body : List Nat)
    (hapi : strStartsWith path "/api/" = true) :
    (readAndParse cl body = Except.error PyExc.jsonDecodeError →
      do_POST now path cl body = send_error 400 "Invalid JSON") ∧
    (readAndParse cl body = Except.error PyExc.unicodeDecodeError →
      (do_POST now path cl body).status = 500) := by
  constructor
  · intro h
    unfold do_POST
    rw [hapi]
    unfold handle_api_post api_post_core
    rw [h]
    rfl
  · intro h
    unfold do_POST
    rw [hapi]
    unfold handle_api_post api_post_core
    rw [h]
    rfl

/-- Claim C3 witness: unparseable ASCII gets 400; an invalid UTF-8 byte
gets 500. -/
theorem C3_body_parse_failures_witness :
    do_POST "0" "/api/auth/login" (some "8") (asciiBytes "not json") =
      send_error 400 "Invalid JSON" ∧
    (do_POST "0" "/api/auth/login" (some "1") [255]).status = 500 :=
  ⟨(C3_body_parse_failures "0" "/api/auth/login" (some "8") (asciiBytes "not json") rfl).1 rfl,
   (C3_body_parse_failures "0" "/api/auth/login" (some "1") [255] rfl).2 rfl⟩

/-- Claim C4, counterexample: `name` is the number 0 — present and not the
empty string — yet the register handler answers "Missing required fields",
because the code tests Python truthiness, not absence/emptiness. -/
theorem C4_counterexample :
    do_POST "0" "/api/auth/register" (some "42")
        (asciiBytes "\x7b\"name\": 0, \"email\": \"b\", \"password\": \"c\"\x7d") =
      send_json_response missingFields :=
  rfl

/-- Claim C4, amended: a register body with any of name/email/password
falsy (missing, empty string, 0, false, null, empty array or object) gets
"Missing required fields"; with all three truthy it gets `success = true`
echoing name, email, and role, where role falls back to `"athlete"` when
the field is absent (an explicitly supplied role is echoed as given). -/
theorem C4_register_truthiness (now : String) (fields : List (String × Json)) :
    (((fieldD fields "name" (Json.str "")).truthy = false ∨
      (fieldD fields "email" (Json.str "")).truthy = false ∨
      (fieldD fields "password" (Json.str "")).truthy = false) →
      handle_register now (Json.obj fields) = Except.ok missingFields) ∧
    ((fieldD fields "name" (Json.str "")).truthy = true →
     (fieldD fields "email" (Json.str "")).truthy = true →
     (fieldD fields "password" (Json.str "")).truthy = true →
      handle_register now (Json.obj fields) = Except.ok (Json.obj
        [ ("success", Json.bool true),
          ("user", Json.obj
            [ ("id", Json.str ("user_" ++ now)),
              ("name", fieldD fields "name" (Json.str "")),
              ("email", fieldD fields "email" (Json.str "")),
              ("role", fieldD fields "role" (Json.str "athlete")) ]) ])) := by
  constructor
  · intro h
    unfold handle_register
    simp only [pyGet]
    rcases h with h | h | h <;> simp [h]
  · intro h1 h2 h3
    unfold handle_register
    simp only [pyGet]
    simp [h1, h2, h3]

/-- Claim C4 witness: an empty name is rejected; three plain strings are
echoed with the default role. -/
theorem C4_register_truthiness_witness :
    handle_register "0" (Json.obj [("name", Json.str "")]) = Except.ok missingFields ∧
    handle_register "0"
        (Json.obj [("name", Json.str "a"), ("email", Json.str "b"), ("password", Json.str "c")]) =
      Except.ok (Json.obj
        [ ("success", Json.bool true),
          ("user", Json.obj
            [ ("id", Json.str "user_0"),
              ("name", Json.str "a"),
              ("email", Json.str "b"),
              ("role", Json.str "athlete") ]) ]) :=
  ⟨(C4_register_truthiness "0" [("name", Json.str "")]).1 (Or.inl rfl),
   (C4_register_truthiness "0"
      [("name", Json.str "a"), ("email", Json.str "b"), ("password", Json.str "c")]).2 rfl rfl rfl⟩

/-- Claim C5, counterexample: a POST to the unmatched API path
`/api/unknown` whose body is not valid JSON answers 400 "Invalid JSON" —
body parsing precedes routing, so the claimed unconditional 404 is wrong. -/
theorem C5_counterexample :
    do_POST "0" "/api/unknown" (some "8") (asciiBytes "not json") =
      send_error 400 "Invalid JSON" ∧
    (do_POST "0" "/api/unknown" (some "8") (asciiBytes "not json")).reason ≠
      "API endpoint not found" :=
  ⟨rfl, by decide⟩

/-- Claim C5, amended: an unmatched GET under `/api/` answers 404 "API
endpoint not found"; an unmatched POST under `/api/` answers the same 404
provided its body passes the parse pipeline (parse failures answer first);
a POST not under `/api/` answers 404 "Not Found". -/
theorem C5_unmatched_routes (fs : String → Option String) (now path : String)
    (cl : Option String) (body : List Nat) :
    (strStartsWith path "/api/" = true → path ≠ "/api/health" → path ≠ "/api/config" →
      do_GET fs now path = send_error 404 "API endpoint not found") ∧
    (strStartsWith path "/api/" = true → path ≠ "/api/auth/login" →
     path ≠ "/api/auth/register" → path ≠ "/api/training/sessions" →
     path ≠ "/api/ai/analysis" →
     ∀ data : Json, readAndParse cl body = Except.ok data →
      do_POST now path cl body = send_error 404 "API endpoint not found") ∧
    (strStartsWith path "/api/" = false →
      do_POST now path cl body = send_error 404 "Not Found") := by
  refine ⟨?_, ?_, ?_⟩
  · intro hapi h1 h2
    unfold do_GET
    rw [hapi]
    unfold handle_api_get
    rw [if_neg h1, if_neg h2]
    rfl
  · intro hapi h1 h2 h3 h4 data hparse
    unfold do_POST
    rw [hapi]
    unfold handle_api_post api_post_core
    rw [hparse]
    simp [h1, h2, h3, h4]
  · intro hnot
    unfold do_POST
    rw [hnot]
    rfl

/-- Claim C5 witness: the three unmatched routes at concrete inputs. -/
theorem C5_unmatched_routes_witness :
    do_GET (fun _ => none) "0" "/api/unknown" = send_error 404 "API endpoint not found" ∧
    do_POST "0" "/api/unknown" (some "2") (asciiBytes "\x7b\x7d") =
      send_error 404 "API endpoint not found" ∧
    do_POST "0" "/foo" (some "2") (asciiBytes "\x7b\x7d") = send_error 404 "Not Found" :=
  ⟨(C5_unmatched_routes (fun _ => none) "0" "/api/unknown" none []).1 rfl
      (by decide) (by decide),
   (C5_unmatched_routes (fun _ => none) "0" "/api/unknown" (some "2") (asciiBytes "\x7b\x7d")).2.1 rfl
      (by decide) (by decide) (by decide) (by decide) (Json.obj []) rfl,
   (C5_unmatched_routes (fun _ => none) "0" "/foo" (some "2") (asciiBytes "\x7b\x7d")).2.2 rfl⟩

/-- Claim C6: every response of the router — success, 404, 400, 500, static
and preflight alike — carries each of the six fixed CORS/no-cache headers. -/
theorem C6_cors_headers (fs : String → Option String) (now : String) (m : Method)
    (path : String) (cl : Option String) (body : List Nat) (hdr : String × String)
    (hmem : hdr ∈ corsHeaders) :
    hdr ∈ (handleRequest fs now m path cl body).headers := by
  have key : ∀ hs : List (String × String), hdr ∈ end_headers hs := fun hs =>
    List.mem_append_right hs hmem
  cases m with
  | OPTIONS => exact key []
  | GET =>
    show hdr ∈ (do_GET fs now path).headers
    unfold do_GET handle_api_get serve_static
    split
    · split
      · exact key _
      · split
        · exact key _
        · exact key _
    · split
      · exact key _
      · exact key _
  | POST =>
    show hdr ∈ (do_POST now path cl body).headers
    unfold do_POST handle_api_post
    split
    · split
      · exact key _
      · exact key _
      · exact key _
      · exact key _
    · exact key _

/-- Claim C6 witness: one fixed header on one concrete response. -/
theorem C6_cors_headers_witness :
    ("Pragma", "no-cache") ∈ (handleRequest (fun _ => none) "0" Method.GET "/x" none []).headers :=
  C6_cors_headers (fun _ => none) "0" Method.GET "/x" none [] ("Pragma", "no-cache") (by decide)

/-- Claim C7: `GET /api/config` always answers 200 with the fixed config
constant (appName "AthleteAI", version "1.0.0", all four feature flags
true), independent of the clock and the filesystem. -/
theorem C7_config_constant (fs fs2 : String → Option String) (now now2 : String) :
    do_GET fs now "/api/config" = send_json_response config ∧
    (do_GET fs now "/api/config").status = 200 ∧
    do_GET fs now "/api/config" = do_GET fs2 now2 "/api/config" :=
  ⟨rfl, rfl, rfl⟩

/-- Claim C8: the training-session and AI-analysis handlers are
noninterferent in the request body: at the same clock value any two bodies
produce the same response, which is the fixed success shape with the
timestamped identifier. -/
theorem C8_noninterference (now : String) (data1 data2 : Json) :
    handle_training_session now data1 = handle_training_session now data2 ∧
    handle_ai_analysis now data1 = handle_ai_analysis now data2 ∧
    handle_training_session now data1 = Json.obj
      [ ("success", Json.bool true),
        ("sessionId", Json.str ("session_" ++ now)),
        ("message", Json.str "Training session saved successfully") ] ∧
    handle_ai_analysis now data1 = Json.obj
      [ ("success", Json.bool true),
        ("analysisId", Json.str ("analysis_" ++ now)),
        ("message", Json.str "AI analysis saved successfully") ] :=
  ⟨rfl, rfl, rfl, rfl⟩

/-- Claim C9, counterexample: a valid-JSON non-object body (`[1]`) POSTed to
`/api/training/sessions` — one of the four defined endpoints — answers 200
success, not the claimed 500: this handler never touches the parsed body. -/
theorem C9_counterexample :
    do_POST "0" "/api/training/sessions" (some "3") (asciiBytes "[1]") =
      send_json_response (Json.obj
        [ ("success", Json.bool true),
          ("sessionId", Json.str "session_0"),
          ("message", Json.str "Training session saved successfully") ]) ∧
    (do_POST "0" "/api/training/sessions" (some "3") (asciiBytes "[1]")).status = 200 :=
  ⟨rfl, rfl⟩

/-- Claim C9, amended: a valid-JSON non-object body answers 500 on
`/api/auth/login` and `/api/auth/register` (their `.get` raises
`AttributeError`), but the training-session and AI-analysis endpoints
ignore the body and answer 200 success. -/
theorem C9_nonobject_bodies (now : String) (cl : Option String) (body : List Nat)
    (data : Json) (hparse : readAndParse cl body = Except.ok data)
    (hobj : data.isObj = false) :
    do_POST now "/api/auth/login" cl body =
      send_error 500 ("Internal server error: " ++ data.pyType ++ " object has no attribute get") ∧
    do_POST now "/api/auth/register" cl body =
      send_error 500 ("Internal server error: " ++ data.pyType ++ " object has no attribute get") ∧
    do_POST now "/api/training/sessions" cl body =
      send_json_response (handle_training_session now data) ∧
    do_POST now "/api/ai/analysis" cl body =
      send_json_response (handle_ai_analysis now data) := by
  refine ⟨?_, ?_, ?_, ?_⟩ <;>
  · show handle_api_post now _ cl body = _
    unfold handle_api_post api_post_core
    rw [hparse]
    cases data with
    | obj fields => exact absurd hobj (by simp [Json.isObj])
    | null => rfl
    | bool b => rfl
    | num n => rfl
    | str s => rfl
    | arr items => rfl

/-- Claim C9 witness: the array body `[1]` gets 500 on login but 200 on
AI analysis. -/
theorem C9_nonobject_bodies_witness :
    do_POST "0" "/api/auth/login" (some "3") (asciiBytes "[1]") =
      send_error 500 "Internal server error: list object has no attribute get" ∧
    do_POST "0" "/api/ai/analysis" (some "3") (asciiBytes "[1]") =
      send_json_response (handle_ai_analysis "0" (Json.arr [Json.num 1])) := by
  have h := C9_nonobject_bodies "0" (some "3") (asciiBytes "[1]") (Json.arr [Json.num 1]) rfl rfl
  exact ⟨h.1, h.2.2.2⟩

/-- Claim C10: a POST under `/api/` without a Content-Length header gets
exactly one response, and it is the 500 from `int(None)` raising
`TypeError` before the body is read — not a 400. -/
theorem C10_missing_content_length (now path : String) (body : List Nat)
    (hapi : strStartsWith path "/api/" = true) :
    do_POST now path none body =
      send_error 500 "Internal server error: int() argument must be a string, a bytes-like object or a real number, not NoneType" := by
  unfold do_POST
  rw [hapi]
  rfl

/-- Claim C10 witness: the missing-header 500 at a concrete endpoint. -/
theorem C10_missing_content_length_witness :
    do_POST "0" "/api/auth/login" none [] =
      send_error 500 "Internal server error: int() argument must be a string, a bytes-like object or a real number, not NoneType" :=
  C10_missing_content_length "0" "/api/auth/login" [] rfl
